import Mathlib

/-!
Shallow embedding of `sna_toolbox/src/similarities.py`.

Python sets are modelled as `Finset PyVal`.  Python's numeric cross-type
equality (`1 == 1.0`, so `{1, 1.0}` is a one-element set) makes a single
numeric constructor carrying the exact value the faithful model of a set
element: an `int` is a `PyVal.num` with an integral value, a `float` a
`PyVal.num` with a possibly fractional value, and
`isinstance(c, numbers.Number)` holds exactly for `PyVal.num`.  Strings and
bytes are two distinct non-numeric kinds, which is what the homogeneity
check distinguishes via `type(c)`.

Fallible calls return `PyResult`: `error msg` models a raised `TypeError`,
`ok ws v` models a normal return of `v` after emitting the warnings `ws`
(`v = none` models Python `None`).
-/

/-- Model of a Python set element (value-level, matching Python set
equality: `int` and `float` of equal value are one element). -/
inductive PyVal where
  | num : ℚ → PyVal
  | str : String → PyVal
  | bytes : String → PyVal
deriving DecidableEq

/-- The homogeneity class assigned by the gate: `numbers.Number` for any
numeric element, otherwise the exact runtime type. -/
inductive PyKind where
  | number : PyKind
  | strKind : PyKind
  | bytesKind : PyKind
deriving DecidableEq

/-- `numbers.Number if isinstance(c, numbers.Number) else type(c)`. -/
def kindOf : PyVal → PyKind
  | PyVal.num _ => PyKind.number
  | PyVal.str _ => PyKind.strKind
  | PyVal.bytes _ => PyKind.bytesKind

/-- `isinstance(c, numbers.Number)`. -/
def isNum : PyVal → Bool
  | PyVal.num _ => true
  | _ => false

/-- The set `{numbers.Number if isinstance(c, Number) else type(c) for c in s}`. -/
def kindsOf (s : Finset PyVal) : Finset PyKind := s.image kindOf

/-- Outcome of a gate-wrapped call: a raised error, or a normal return
(with the warnings emitted along the way; `none` is Python `None`). -/
inductive PyResult (α : Type) where
  | error : String → PyResult α
  | ok : List String → Option α → PyResult α
deriving DecidableEq

/-- Python truthiness of the `option` argument of `validate_input`
(`None` and `""` are falsy). -/
def pyTruthy : Option String → Bool
  | none => false
  | some s => s ≠ ""

/-- `validate_input`'s configuration-time guard:
`if option and option != "one": raise ValueError(...)`.
Returns `true` iff the `ValueError` is raised. -/
def validate_input_raises (option : Option String) : Bool :=
  pyTruthy option && !(option == some "one")

/-- `wrapper_validate_input` from `validate_input(option)`, specialised to
the call shapes the module uses: two set arguments and an optional third
set (all arguments being sets, the `"All arguments must be sets!"` check
passes).  Mirrors the source's check order:
policy-`"one"` emptiness, both-empty, homogeneity over `args[0] | args[1]`,
then the superset check on a third argument (dropping it on failure). -/
def wrapper_validate_input {α : Type} [Zero α] (option : Option String)
    (func : Finset PyVal → Finset PyVal → Option (Finset PyVal) → α)
    (setA setB : Finset PyVal) (total : Option (Finset PyVal)) : PyResult α :=
  if option = some "one" ∧ (setA = ∅ ∨ setB = ∅) then
    PyResult.ok ["At least one of the sets must be non-empty."] none
  else if setA = ∅ ∧ setB = ∅ then
    PyResult.ok ["Both sets are empty!"] (some 0)
  else if (kindsOf (setA ∪ setB)).card ≠ 1 then
    PyResult.error "Elements in the sets must be of the same type."
  else
    match total with
    | none => PyResult.ok [] (some (func setA setB none))
    | some t =>
      if setA ∪ setB ⊆ t then
        PyResult.ok [] (some (func setA setB (some t)))
      else
        PyResult.ok ["The total range provided is not a superset of the other two sets"]
          (some (func setA setB none))

/-- Body of `overlap_coefficient`: `len(set1 & set2) / min(len(set1), len(set2))`.
`total_range` is unused by the formula. -/
def overlap_coefficient_raw (set1 set2 : Finset PyVal)
    (_total : Option (Finset PyVal)) : ℚ :=
  ((set1 ∩ set2).card : ℚ) / ((min set1.card set2.card : ℕ) : ℚ)

/-- `overlap_coefficient = validate_input("one")(overlap_coefficient_raw)`. -/
def overlap_coefficient (setA setB : Finset PyVal)
    (total : Option (Finset PyVal)) : PyResult ℚ :=
  wrapper_validate_input (some "one") overlap_coefficient_raw setA setB total

/-- Body of `jaccard_similarity`: `len(set1 & set2) / len(set1 | set2)`. -/
def jaccard_similarity_raw (set1 set2 : Finset PyVal)
    (_total : Option (Finset PyVal)) : ℚ :=
  ((set1 ∩ set2).card : ℚ) / ((set1 ∪ set2).card : ℚ)

/-- `jaccard_similarity = validate_input()(jaccard_similarity_raw)`. -/
def jaccard_similarity (setA setB : Finset PyVal)
    (total : Option (Finset PyVal)) : PyResult ℚ :=
  wrapper_validate_input none jaccard_similarity_raw setA setB total

/-- Body of `dice_sørensen_coefficient`:
`2 * len(set1 & set2) / (len(set1) + len(set2))`. -/
def dice_sorensen_coefficient_raw (set1 set2 : Finset PyVal)
    (_total : Option (Finset PyVal)) : ℚ :=
  (2 * (set1 ∩ set2).card : ℚ) / ((set1.card : ℚ) + (set2.card : ℚ))

/-- `dice_sørensen_coefficient = validate_input()(dice_sorensen_coefficient_raw)`. -/
def dice_sorensen_coefficient (setA setB : Finset PyVal)
    (total : Option (Finset PyVal)) : PyResult ℚ :=
  wrapper_validate_input none dice_sorensen_coefficient_raw setA setB total

/-- Body of `cosine_similarity`: indicator vectors over `set1 | set2`
(the source binds the union to a variable named `intersection`), dot
product over the union, and the product of the Euclidean norms.  Iteration
order of the Python set only permutes vector entries and cannot change the
sums, so `Finset.sum` is the faithful rendering. -/
noncomputable def cosine_similarity_raw (set1 set2 : Finset PyVal)
    (_total : Option (Finset PyVal)) : ℝ :=
  (∑ i ∈ set1 ∪ set2,
      (if i ∈ set1 then (1 : ℝ) else 0) * (if i ∈ set2 then (1 : ℝ) else 0)) /
    (Real.sqrt (∑ i ∈ set1 ∪ set2, (if i ∈ set1 then (1 : ℝ) else 0) ^ 2) *
     Real.sqrt (∑ i ∈ set1 ∪ set2, (if i ∈ set2 then (1 : ℝ) else 0) ^ 2))

/-- `cosine_similarity = validate_input("one")(cosine_similarity_raw)`. -/
noncomputable def cosine_similarity (setA setB : Finset PyVal)
    (total : Option (Finset PyVal)) : PyResult ℝ :=
  wrapper_validate_input (some "one") cosine_similarity_raw setA setB total

/-- Body of `simple_matching_coefficient`.  Note the Python truthiness in
`all_ = set1 | set2 if not total_range else total_range`: both `None` and
an empty third set fall back to `set1 | set2`. -/
def simple_matching_coefficient_raw (set1 set2 : Finset PyVal)
    (total : Option (Finset PyVal)) : ℚ :=
  let all_ : Finset PyVal :=
    match total with
    | none => set1 ∪ set2
    | some t => if t = ∅ then set1 ∪ set2 else t
  let p : ℕ := (set1 ∩ set2).card
  let q : ℕ := (set1 \ set2).card
  let r : ℕ := (set2 \ set1).card
  let s : ℕ := ((symmDiff set1 all_) ∩ (symmDiff set2 all_)).card
  ((p + s : ℕ) : ℚ) / ((p + q + r + s : ℕ) : ℚ)

/-- `simple_matching_coefficient = validate_input("one")(simple_matching_coefficient_raw)`. -/
def simple_matching_coefficient (setA setB : Finset PyVal)
    (total : Option (Finset PyVal)) : PyResult ℚ :=
  wrapper_validate_input (some "one") simple_matching_coefficient_raw setA setB total

/-- `hamming_distance`: `len(set1 ^ set2)` — not gate-wrapped. -/
def hamming_distance (set1 set2 : Finset PyVal) : ℕ :=
  (symmDiff set1 set2).card

/-- Body of `hamming_coefficient`: `hamming_distance(set1, set2) / len(all_)`
with the same truthiness-based default universe as the simple matching
coefficient. -/
def hamming_coefficient_raw (set1 set2 : Finset PyVal)
    (total : Option (Finset PyVal)) : ℚ :=
  let all_ : Finset PyVal :=
    match total with
    | none => set1 ∪ set2
    | some t => if t = ∅ then set1 ∪ set2 else t
  (hamming_distance set1 set2 : ℚ) / (all_.card : ℚ)

/-- `hamming_coefficient = validate_input()(hamming_coefficient_raw)`. -/
def hamming_coefficient (setA setB : Finset PyVal)
    (total : Option (Finset PyVal)) : PyResult ℚ :=
  wrapper_validate_input none hamming_coefficient_raw setA setB total

/-! ## Gate branch lemmas -/

theorem wrapper_sentinel {α : Type} [Zero α] {option : Option String}
    {func : Finset PyVal → Finset PyVal → Option (Finset PyVal) → α}
    {setA setB : Finset PyVal} {total : Option (Finset PyVal)}
    (h : option = some "one" ∧ (setA = ∅ ∨ setB = ∅)) :
    wrapper_validate_input option func setA setB total =
      PyResult.ok ["At least one of the sets must be non-empty."] none := by
  unfold wrapper_validate_input
  rw [if_pos h]

theorem wrapper_both_empty {α : Type} [Zero α] {option : Option String}
    {func : Finset PyVal → Finset PyVal → Option (Finset PyVal) → α}
    {setA setB : Finset PyVal} {total : Option (Finset PyVal)}
    (h1 : ¬(option = some "one" ∧ (setA = ∅ ∨ setB = ∅)))
    (h2 : setA = ∅ ∧ setB = ∅) :
    wrapper_validate_input option func setA setB total =
      PyResult.ok ["Both sets are empty!"] (some 0) := by
  unfold wrapper_validate_input
  rw [if_neg h1, if_pos h2]

theorem wrapper_type_error {α : Type} [Zero α] {option : Option String}
    {func : Finset PyVal → Finset PyVal → Option (Finset PyVal) → α}
    {setA setB : Finset PyVal} {total : Option (Finset PyVal)}
    (h1 : ¬(option = some "one" ∧ (setA = ∅ ∨ setB = ∅)))
    (h2 : ¬(setA = ∅ ∧ setB = ∅))
    (h3 : (kindsOf (setA ∪ setB)).card ≠ 1) :
    wrapper_validate_input option func setA setB total =
      PyResult.error "Elements in the sets must be of the same type." := by
  unfold wrapper_validate_input
  rw [if_neg h1, if_neg h2, if_pos h3]

theorem wrapper_forward_none {α : Type} [Zero α] {option : Option String}
    {func : Finset PyVal → Finset PyVal → Option (Finset PyVal) → α}
    {setA setB : Finset PyVal}
    (h1 : ¬(option = some "one" ∧ (setA = ∅ ∨ setB = ∅)))
    (h2 : ¬(setA = ∅ ∧ setB = ∅))
    (h3 : (kindsOf (setA ∪ setB)).card = 1) :
    wrapper_validate_input option func setA setB none =
      PyResult.ok [] (some (func setA setB none)) := by
  unfold wrapper_validate_input
  rw [if_neg h1, if_neg h2, if_neg (not_ne_iff.mpr h3)]

theorem wrapper_forward_some {α : Type} [Zero α] {option : Option String}
    {func : Finset PyVal → Finset PyVal → Option (Finset PyVal) → α}
    {setA setB t : Finset PyVal}
    (h1 : ¬(option = some "one" ∧ (setA = ∅ ∨ setB = ∅)))
    (h2 : ¬(setA = ∅ ∧ setB = ∅))
    (h3 : (kindsOf (setA ∪ setB)).card = 1)
    (h4 : setA ∪ setB ⊆ t) :
    wrapper_validate_input option func setA setB (some t) =
      PyResult.ok [] (some (func setA setB (some t))) := by
  unfold wrapper_validate_input
  rw [if_neg h1, if_neg h2, if_neg (not_ne_iff.mpr h3)]
  exact if_pos h4

theorem wrapper_drop_range {α : Type} [Zero α] {option : Option String}
    {func : Finset PyVal → Finset PyVal → Option (Finset PyVal) → α}
    {setA setB t : Finset PyVal}
    (h1 : ¬(option = some "one" ∧ (setA = ∅ ∨ setB = ∅)))
    (h2 : ¬(setA = ∅ ∧ setB = ∅))
    (h3 : (kindsOf (setA ∪ setB)).card = 1)
    (h4 : ¬(setA ∪ setB ⊆ t)) :
    wrapper_validate_input option func setA setB (some t) =
      PyResult.ok ["The total range provided is not a superset of the other two sets"]
        (some (func setA setB none)) := by
  unfold wrapper_validate_input
  rw [if_neg h1, if_neg h2, if_neg (not_ne_iff.mpr h3)]
  exact if_neg h4

/-! ## Symmetry of the gate and of each formula -/

theorem wrapper_symm {α : Type} [Zero α] (option : Option String)
    (func : Finset PyVal → Finset PyVal → Option (Finset PyVal) → α)
    (hf : ∀ s1 s2 u, func s1 s2 u = func s2 s1 u)
    (setA setB : Finset PyVal) (total : Option (Finset PyVal)) :
    wrapper_validate_input option func setA setB total =
      wrapper_validate_input option func setB setA total := by
  by_cases h1 : option = some "one" ∧ (setA = ∅ ∨ setB = ∅)
  · rw [wrapper_sentinel h1, wrapper_sentinel ⟨h1.1, h1.2.symm⟩]
  · have h1' : ¬(option = some "one" ∧ (setB = ∅ ∨ setA = ∅)) :=
      fun h => h1 ⟨h.1, h.2.symm⟩
    by_cases h2 : setA = ∅ ∧ setB = ∅
    · rw [wrapper_both_empty h1 h2, wrapper_both_empty h1' ⟨h2.2, h2.1⟩]
    · have h2' : ¬(setB = ∅ ∧ setA = ∅) := fun h => h2 ⟨h.2, h.1⟩
      by_cases h3 : (kindsOf (setA ∪ setB)).card = 1
      · have h3' : (kindsOf (setB ∪ setA)).card = 1 := by
          rwa [Finset.union_comm setB setA]
        cases total with
        | none =>
          rw [wrapper_forward_none h1 h2 h3, wrapper_forward_none h1' h2' h3', hf]
        | some t =>
          by_cases h4 : setA ∪ setB ⊆ t
          · have h4' : setB ∪ setA ⊆ t := by rwa [Finset.union_comm setB setA]
            rw [wrapper_forward_some h1 h2 h3 h4,
              wrapper_forward_some h1' h2' h3' h4', hf]
          · have h4' : ¬(setB ∪ setA ⊆ t) := by
              rwa [Finset.union_comm setB setA]
            rw [wrapper_drop_range h1 h2 h3 h4,
              wrapper_drop_range h1' h2' h3' h4', hf]
      · have h3' : (kindsOf (setB ∪ setA)).card ≠ 1 := by
          rwa [Finset.union_comm setB setA]
        rw [wrapper_type_error h1 h2 h3, wrapper_type_error h1' h2' h3']

theorem overlap_raw_symm (s1 s2 : Finset PyVal) (u : Option (Finset PyVal)) :
    overlap_coefficient_raw s1 s2 u = overlap_coefficient_raw s2 s1 u := by
  unfold overlap_coefficient_raw
  rw [Finset.inter_comm, min_comm]

theorem jaccard_raw_symm (s1 s2 : Finset PyVal) (u : Option (Finset PyVal)) :
    jaccard_similarity_raw s1 s2 u = jaccard_similarity_raw s2 s1 u := by
  unfold jaccard_similarity_raw
  rw [Finset.inter_comm, Finset.union_comm]

theorem dice_raw_symm (s1 s2 : Finset PyVal) (u : Option (Finset PyVal)) :
    dice_sorensen_coefficient_raw s1 s2 u = dice_sorensen_coefficient_raw s2 s1 u := by
  unfold dice_sorensen_coefficient_raw
  rw [Finset.inter_comm, add_comm (s1.card : ℚ)]

theorem cosine_raw_symm (s1 s2 : Finset PyVal) (u : Option (Finset PyVal)) :
    cosine_similarity_raw s1 s2 u = cosine_similarity_raw s2 s1 u := by
  unfold cosine_similarity_raw
  rw [Finset.union_comm s2 s1, mul_comm (Real.sqrt _)]
  congr 1
  exact Finset.sum_congr rfl fun i _ => mul_comm _ _

theorem smc_raw_symm (s1 s2 : Finset PyVal) (u : Option (Finset PyVal)) :
    simple_matching_coefficient_raw s1 s2 u = simple_matching_coefficient_raw s2 s1 u := by
  simp only [simple_matching_coefficient_raw]
  rw [Finset.union_comm s2 s1, Finset.inter_comm s2 s1,
    Finset.inter_comm (symmDiff s2 _) (symmDiff s1 _)]
  congr 2
  omega

theorem hamming_distance_symm (s1 s2 : Finset PyVal) :
    hamming_distance s1 s2 = hamming_distance s2 s1 := by
  unfold hamming_distance
  rw [symmDiff_comm]

theorem hamming_raw_symm (s1 s2 : Finset PyVal) (u : Option (Finset PyVal)) :
    hamming_coefficient_raw s1 s2 u = hamming_coefficient_raw s2 s1 u := by
  simp only [hamming_coefficient_raw]
  rw [Finset.union_comm s2 s1, hamming_distance_symm]

/-! ## Universe-default and valuation helpers -/

theorem smc_raw_union_default (s1 s2 : Finset PyVal) :
    simple_matching_coefficient_raw s1 s2 (some (s1 ∪ s2)) =
      simple_matching_coefficient_raw s1 s2 none := by
  simp only [simple_matching_coefficient_raw, ite_self]

theorem hamming_raw_union_default (s1 s2 : Finset PyVal) :
    hamming_coefficient_raw s1 s2 (some (s1 ∪ s2)) =
      hamming_coefficient_raw s1 s2 none := by
  simp only [hamming_coefficient_raw, ite_self]

theorem smc_s_term_zero (s1 s2 : Finset PyVal) :
    ((symmDiff s1 (s1 ∪ s2)) ∩ (symmDiff s2 (s1 ∪ s2))).card = 0 := by
  rw [symmDiff_of_le Finset.subset_union_left,
    symmDiff_of_le Finset.subset_union_right,
    ← Finset.sdiff_union_distrib, Finset.sdiff_self]
  exact Finset.card_empty

theorem card_inter_sdiff_sdiff (s1 s2 : Finset PyVal) :
    (s1 ∩ s2).card + (s1 \ s2).card + (s2 \ s1).card = (s1 ∪ s2).card := by
  have h1 := Finset.card_inter_add_card_sdiff s1 s2
  have h2 := Finset.card_sdiff_add_card s2 s1
  rw [Finset.union_comm s2 s1] at h2
  omega

theorem smc_raw_default_value (s1 s2 : Finset PyVal) :
    simple_matching_coefficient_raw s1 s2 none =
      ((s1 ∩ s2).card : ℚ) / ((s1 ∪ s2).card : ℚ) := by
  simp only [simple_matching_coefficient_raw, smc_s_term_zero, Nat.add_zero]
  rw [card_inter_sdiff_sdiff]

theorem kindsOf_all_num {s : Finset PyVal} (h : ∀ x ∈ s, isNum x = true)
    (hne : s ≠ ∅) : (kindsOf s).card = 1 := by
  have hs : kindsOf s = {PyKind.number} := by
    ext k
    simp only [kindsOf, Finset.mem_image, Finset.mem_singleton]
    constructor
    · rintro ⟨x, hx, rfl⟩
      have hn := h x hx
      cases x with
      | num q => rfl
      | str t => simp [isNum] at hn
      | bytes t => simp [isNum] at hn
    · rintro rfl
      obtain ⟨x, hx⟩ := Finset.nonempty_iff_ne_empty.mpr hne
      refine ⟨x, hx, ?_⟩
      have hn := h x hx
      cases x with
      | num q => rfl
      | str t => simp [isNum] at hn
      | bytes t => simp [isNum] at hn
  rw [hs, Finset.card_singleton]

/-! ## Claim theorems -/

/-- C1: the claim says a call with both primary sets empty emits
"Both sets are empty!" and returns 0 for every gate-wrapped measure,
including the policy-"one" ones.  The code places the policy-"one" check
before the both-empty check, so the three policy-"one" measures instead
emit "At least one of the sets must be non-empty." and return `None`,
while the policy-none measures do return 0 with "Both sets are empty!".
This theorem records the code's actual behaviour at the failing input. -/
theorem c1_both_empty_code_behavior :
    overlap_coefficient ∅ ∅ none =
      PyResult.ok ["At least one of the sets must be non-empty."] none ∧
    cosine_similarity ∅ ∅ none =
      PyResult.ok ["At least one of the sets must be non-empty."] none ∧
    simple_matching_coefficient ∅ ∅ none =
      PyResult.ok ["At least one of the sets must be non-empty."] none ∧
    jaccard_similarity ∅ ∅ none = PyResult.ok ["Both sets are empty!"] (some 0) ∧
    dice_sorensen_coefficient ∅ ∅ none = PyResult.ok ["Both sets are empty!"] (some 0) ∧
    hamming_coefficient ∅ ∅ none = PyResult.ok ["Both sets are empty!"] (some 0) :=
  ⟨rfl, rfl, rfl, rfl, rfl, rfl⟩

/-- C2: for each policy-"one" measure, a call with exactly one of the two
primary sets empty emits "At least one of the sets must be non-empty."
and returns `None` (no numeric score), raising nothing and never invoking
the wrapped formula, for any third argument. -/
theorem c2_policy_one_sentinel (setA setB : Finset PyVal)
    (total : Option (Finset PyVal))
    (h : (setA = ∅ ∧ setB ≠ ∅) ∨ (setA ≠ ∅ ∧ setB = ∅)) :
    overlap_coefficient setA setB total =
      PyResult.ok ["At least one of the sets must be non-empty."] none ∧
    cosine_similarity setA setB total =
      PyResult.ok ["At least one of the sets must be non-empty."] none ∧
    simple_matching_coefficient setA setB total =
      PyResult.ok ["At least one of the sets must be non-empty."] none := by
  have he : setA = ∅ ∨ setB = ∅ := h.elim (fun x => Or.inl x.1) (fun x => Or.inr x.2)
  exact ⟨wrapper_sentinel ⟨rfl, he⟩, wrapper_sentinel ⟨rfl, he⟩,
    wrapper_sentinel ⟨rfl, he⟩⟩

/-- C2 witness: `overlap_coefficient(set(), {1})` (and the other two
policy-"one" measures) at a concrete input. -/
theorem c2_policy_one_sentinel_witness :
    overlap_coefficient ∅ {PyVal.num 1} none =
      PyResult.ok ["At least one of the sets must be non-empty."] none ∧
    cosine_similarity ∅ {PyVal.num 1} none =
      PyResult.ok ["At least one of the sets must be non-empty."] none ∧
    simple_matching_coefficient ∅ {PyVal.num 1} none =
      PyResult.ok ["At least one of the sets must be non-empty."] none :=
  c2_policy_one_sentinel ∅ {PyVal.num 1} none (Or.inl ⟨rfl, by decide⟩)

/-- C6 counterexample: the claim says every configuration other than
`"one"` and the no-requirement default (`None`) is rejected with a
`ValueError`; the empty string is neither of those two values, yet
`if option and option != "one"` does not fire on it (it is falsy), so no
`ValueError` is raised. -/
theorem c6_counterexample :
    (some "" : Option String) ≠ some "one" ∧ (some "" : Option String) ≠ none ∧
      validate_input_raises (some "") = false := by
  decide

/-- C6 amended: `validate_input` accepts `"one"` and every falsy
configuration (the default `None` and the empty string); every non-empty
string other than `"one"` is rejected at configuration time with a
`ValueError` (the guard depends only on the configured option, before any
per-call validation). -/
theorem c6_config_guard :
    validate_input_raises none = false ∧
    validate_input_raises (some "one") = false ∧
    validate_input_raises (some "") = false ∧
    ∀ s : String, s ≠ "" → s ≠ "one" →
      validate_input_raises (some s) = true := by
  refine ⟨rfl, by decide, by decide, fun s h1 h2 => ?_⟩
  simp [validate_input_raises, pyTruthy, h1, h2]

/-- C6 amended witness: the configuration `"two"` is rejected. -/
theorem c6_config_guard_witness : validate_input_raises (some "two") = true :=
  c6_config_guard.2.2.2 "two" (by decide) (by decide)

/-- C8: `hamming_distance` is `len(set1 ^ set2)` with no validation layer:
for all sets (no homogeneity or emptiness hypothesis) it equals the size
of the symmetric difference, and it evaluates normally on mixed-kind and
on empty inputs. -/
theorem c8_hamming_distance_unvalidated :
    (∀ setA setB : Finset PyVal,
        hamming_distance setA setB = ((setA \ setB) ∪ (setB \ setA)).card) ∧
    hamming_distance {PyVal.num 1, PyVal.str "f"} ∅ = 2 ∧
    hamming_distance ∅ ∅ = 0 :=
  ⟨fun _ _ => rfl, rfl, rfl⟩

/-- C3: for every validated measure, a third set argument that is not a
superset of `setA ∪ setB` (with all earlier gate checks passing) is
dropped with the superset warning, and the call computes exactly the
value of the universe-omitted call; for the two measures that use a
universe, the formula run without one uses `setA ∪ setB`. -/
theorem c3_bad_universe_dropped {α : Type} [Zero α] (option : Option String)
    (func : Finset PyVal → Finset PyVal → Option (Finset PyVal) → α)
    (setA setB t : Finset PyVal)
    (h1 : ¬(option = some "one" ∧ (setA = ∅ ∨ setB = ∅)))
    (h2 : ¬(setA = ∅ ∧ setB = ∅))
    (h3 : (kindsOf (setA ∪ setB)).card = 1)
    (h4 : ¬(setA ∪ setB ⊆ t)) :
    wrapper_validate_input option func setA setB (some t) =
      PyResult.ok ["The total range provided is not a superset of the other two sets"]
        (some (func setA setB none)) ∧
    wrapper_validate_input option func setA setB none =
      PyResult.ok [] (some (func setA setB none)) ∧
    simple_matching_coefficient_raw setA setB none =
      simple_matching_coefficient_raw setA setB (some (setA ∪ setB)) ∧
    hamming_coefficient_raw setA setB none =
      hamming_coefficient_raw setA setB (some (setA ∪ setB)) :=
  ⟨wrapper_drop_range h1 h2 h3 h4, wrapper_forward_none h1 h2 h3,
    (smc_raw_union_default setA setB).symm, (hamming_raw_union_default setA setB).symm⟩

/-- C3 witness: `jaccard_similarity({1}, {2}, {5})` — the universe `{5}`
is not a superset, gets dropped, and the score is that of the two-set call. -/
theorem c3_bad_universe_dropped_witness :
    wrapper_validate_input none jaccard_similarity_raw
        {PyVal.num 1} {PyVal.num 2} (some {PyVal.num 5}) =
      PyResult.ok ["The total range provided is not a superset of the other two sets"]
        (some (jaccard_similarity_raw {PyVal.num 1} {PyVal.num 2} none)) ∧
    wrapper_validate_input none jaccard_similarity_raw
        {PyVal.num 1} {PyVal.num 2} none =
      PyResult.ok [] (some (jaccard_similarity_raw {PyVal.num 1} {PyVal.num 2} none)) ∧
    simple_matching_coefficient_raw {PyVal.num 1} {PyVal.num 2} none =
      simple_matching_coefficient_raw {PyVal.num 1} {PyVal.num 2}
        (some ({PyVal.num 1} ∪ {PyVal.num 2})) ∧
    hamming_coefficient_raw {PyVal.num 1} {PyVal.num 2} none =
      hamming_coefficient_raw {PyVal.num 1} {PyVal.num 2}
        (some ({PyVal.num 1} ∪ {PyVal.num 2})) :=
  c3_bad_universe_dropped none jaccard_similarity_raw
    {PyVal.num 1} {PyVal.num 2} {PyVal.num 5}
    (by decide) (by decide) (by decide) (by decide)

/-- C4: with at least one of the two sets non-empty,
`simple_matching_coefficient(A, B, A ∪ B)` equals the call with the
universe omitted; when both sets are non-empty the both-absent term
`s = |(A ⊕ U) ∩ (B ⊕ U)|` of the default-universe case is 0 and (for
homogeneous inputs) the returned score is `|A ∩ B| / |A ∪ B|`. -/
theorem c4_smc_universe_roundtrip (setA setB : Finset PyVal)
    (_h : setA ≠ ∅ ∨ setB ≠ ∅) :
    simple_matching_coefficient setA setB (some (setA ∪ setB)) =
      simple_matching_coefficient setA setB none ∧
    (setA ≠ ∅ → setB ≠ ∅ →
      ((symmDiff setA (setA ∪ setB)) ∩ (symmDiff setB (setA ∪ setB))).card = 0 ∧
      ((kindsOf (setA ∪ setB)).card = 1 →
        simple_matching_coefficient setA setB none =
          PyResult.ok []
            (some (((setA ∩ setB).card : ℚ) / ((setA ∪ setB).card : ℚ))))) := by
  constructor
  · by_cases he : setA = ∅ ∨ setB = ∅
    · rw [simple_matching_coefficient, simple_matching_coefficient,
        wrapper_sentinel ⟨rfl, he⟩, wrapper_sentinel ⟨rfl, he⟩]
    · have h1 : ¬((some "one" : Option String) = some "one" ∧
          (setA = ∅ ∨ setB = ∅)) := fun hh => he hh.2
      have h2 : ¬(setA = ∅ ∧ setB = ∅) := fun hh => he (Or.inl hh.1)
      by_cases h3 : (kindsOf (setA ∪ setB)).card = 1
      · rw [simple_matching_coefficient, simple_matching_coefficient,
          wrapper_forward_some h1 h2 h3 (Finset.Subset.refl _),
          wrapper_forward_none h1 h2 h3, smc_raw_union_default]
      · rw [simple_matching_coefficient, simple_matching_coefficient,
          wrapper_type_error h1 h2 h3, wrapper_type_error h1 h2 h3]
  · intro ha hb
    refine ⟨smc_s_term_zero setA setB, fun h3 => ?_⟩
    have h1 : ¬((some "one" : Option String) = some "one" ∧
        (setA = ∅ ∨ setB = ∅)) := fun hh => hh.2.elim ha hb
    have h2 : ¬(setA = ∅ ∧ setB = ∅) := fun hh => ha hh.1
    rw [simple_matching_coefficient, wrapper_forward_none h1 h2 h3,
      smc_raw_default_value]

/-- C4 witness: `A = {1, 2}`, `B = {2, 3}`: explicit universe `A ∪ B`
round-trips, `s = 0`, and the score is `|A ∩ B| / |A ∪ B|`. -/
theorem c4_smc_universe_roundtrip_witness :
    simple_matching_coefficient {PyVal.num 1, PyVal.num 2} {PyVal.num 2, PyVal.num 3}
        (some ({PyVal.num 1, PyVal.num 2} ∪ {PyVal.num 2, PyVal.num 3})) =
      simple_matching_coefficient {PyVal.num 1, PyVal.num 2} {PyVal.num 2, PyVal.num 3}
        none ∧
    ((symmDiff ({PyVal.num 1, PyVal.num 2} : Finset PyVal)
          ({PyVal.num 1, PyVal.num 2} ∪ {PyVal.num 2, PyVal.num 3})) ∩
        (symmDiff ({PyVal.num 2, PyVal.num 3} : Finset PyVal)
          ({PyVal.num 1, PyVal.num 2} ∪ {PyVal.num 2, PyVal.num 3}))).card = 0 ∧
    simple_matching_coefficient {PyVal.num 1, PyVal.num 2} {PyVal.num 2, PyVal.num 3}
        none =
      PyResult.ok []
        (some (((({PyVal.num 1, PyVal.num 2} : Finset PyVal) ∩ {PyVal.num 2, PyVal.num 3}).card : ℚ) /
          ((({PyVal.num 1, PyVal.num 2} : Finset PyVal) ∪ {PyVal.num 2, PyVal.num 3}).card : ℚ))) := by
  have h := c4_smc_universe_roundtrip {PyVal.num 1, PyVal.num 2}
    {PyVal.num 2, PyVal.num 3} (Or.inl (by decide))
  exact ⟨h.1, (h.2 (by decide) (by decide)).1,
    (h.2 (by decide) (by decide)).2 (by decide)⟩

/-- C5: once the earlier gate checks pass, a union spanning more than one
homogeneity class fails with `TypeError`
("Elements in the sets must be of the same type."), where every numeric
element is one class and each non-numeric element is classed by its exact
kind; and a union of numeric elements only (integers and floating-point
values alike) always forms exactly one class, so it never raises. -/
theorem c5_homogeneity_check :
    (∀ {α : Type} [Zero α] (option : Option String)
        (func : Finset PyVal → Finset PyVal → Option (Finset PyVal) → α)
        (setA setB : Finset PyVal) (total : Option (Finset PyVal)),
        ¬(option = some "one" ∧ (setA = ∅ ∨ setB = ∅)) →
        ¬(setA = ∅ ∧ setB = ∅) →
        (kindsOf (setA ∪ setB)).card ≠ 1 →
        wrapper_validate_input option func setA setB total =
          PyResult.error "Elements in the sets must be of the same type.") ∧
    (∀ setA setB : Finset PyVal, (∀ x ∈ setA ∪ setB, isNum x = true) →
        setA ∪ setB ≠ ∅ → (kindsOf (setA ∪ setB)).card = 1) :=
  ⟨fun _ _ _setA _setB _ h1 h2 h3 => wrapper_type_error h1 h2 h3,
   fun _ _ h hne => kindsOf_all_num h hne⟩

/-- C5 witness: `{1, 2} ∪ {"f"}` raises the type error, while the
integer/float union `{1} ∪ {1/2}` is a single class. -/
theorem c5_homogeneity_check_witness :
    wrapper_validate_input none jaccard_similarity_raw
        {PyVal.num 1, PyVal.num 2} {PyVal.str "f"} none =
      PyResult.error "Elements in the sets must be of the same type." ∧
    (kindsOf ({PyVal.num 1} ∪ {PyVal.num (mkRat 1 2)})).card = 1 :=
  ⟨c5_homogeneity_check.1 none jaccard_similarity_raw
      {PyVal.num 1, PyVal.num 2} {PyVal.str "f"} none
      (by decide) (by decide) (by decide),
   c5_homogeneity_check.2 {PyVal.num 1} {PyVal.num (mkRat 1 2)}
      (by decide) (by decide)⟩

/-- C7: every exposed measure is symmetric in its two primary arguments:
the full gate-wrapped calls (warnings, sentinels and scores alike) agree
under swapping the two sets, for any optional universe argument, and the
raw Hamming distance is symmetric as well. -/
theorem c7_symmetry (setA setB : Finset PyVal) (total : Option (Finset PyVal)) :
    overlap_coefficient setA setB total = overlap_coefficient setB setA total ∧
    jaccard_similarity setA setB total = jaccard_similarity setB setA total ∧
    dice_sorensen_coefficient setA setB total =
      dice_sorensen_coefficient setB setA total ∧
    cosine_similarity setA setB total = cosine_similarity setB setA total ∧
    simple_matching_coefficient setA setB total =
      simple_matching_coefficient setB setA total ∧
    hamming_coefficient setA setB total = hamming_coefficient setB setA total ∧
    hamming_distance setA setB = hamming_distance setB setA :=
  ⟨wrapper_symm _ _ overlap_raw_symm setA setB total,
   wrapper_symm _ _ jaccard_raw_symm setA setB total,
   wrapper_symm _ _ dice_raw_symm setA setB total,
   wrapper_symm _ _ cosine_raw_symm setA setB total,
   wrapper_symm _ _ smc_raw_symm setA setB total,
   wrapper_symm _ _ hamming_raw_symm setA setB total,
   hamming_distance_symm setA setB⟩

/-- C9: the gate's emptiness checks inspect only the first two arguments.
With `setA ∪ setB` non-empty, a call whose third universe argument is the
empty set can never produce the both-empty short-circuit; it produces the
policy-"one" sentinel exactly when the two-argument call does; and when
the earlier checks pass, the empty universe fails the superset check, is
dropped with the superset warning, and the call computes the same score
as the two-argument call. -/
theorem c9_empty_universe_ignored {α : Type} [Zero α] (option : Option String)
    (func : Finset PyVal → Finset PyVal → Option (Finset PyVal) → α)
    (setA setB : Finset PyVal) (hu : setA ∪ setB ≠ ∅) :
    wrapper_validate_input option func setA setB (some ∅) ≠
      PyResult.ok ["Both sets are empty!"] (some 0) ∧
    (wrapper_validate_input option func setA setB (some ∅) =
        PyResult.ok ["At least one of the sets must be non-empty."] none ↔
      wrapper_validate_input option func setA setB none =
        PyResult.ok ["At least one of the sets must be non-empty."] none) ∧
    (¬(option = some "one" ∧ (setA = ∅ ∨ setB = ∅)) →
      (kindsOf (setA ∪ setB)).card = 1 →
      wrapper_validate_input option func setA setB (some ∅) =
        PyResult.ok ["The total range provided is not a superset of the other two sets"]
          (some (func setA setB none)) ∧
      wrapper_validate_input option func setA setB none =
        PyResult.ok [] (some (func setA setB none))) := by
  have h2 : ¬(setA = ∅ ∧ setB = ∅) := by
    rintro ⟨ha, hb⟩
    exact hu (by rw [ha, hb, Finset.union_empty])
  have h4 : ¬(setA ∪ setB ⊆ (∅ : Finset PyVal)) :=
    fun hs => hu (Finset.subset_empty.mp hs)
  refine ⟨?_, ?_, fun h1 h3 => ⟨wrapper_drop_range h1 h2 h3 h4,
    wrapper_forward_none h1 h2 h3⟩⟩
  · by_cases h1 : option = some "one" ∧ (setA = ∅ ∨ setB = ∅)
    · rw [wrapper_sentinel h1]
      simp
    · by_cases h3 : (kindsOf (setA ∪ setB)).card = 1
      · rw [wrapper_drop_range h1 h2 h3 h4]
        simp
      · rw [wrapper_type_error h1 h2 h3]
        simp
  · by_cases h1 : option = some "one" ∧ (setA = ∅ ∨ setB = ∅)
    · rw [wrapper_sentinel h1, wrapper_sentinel h1]
    · by_cases h3 : (kindsOf (setA ∪ setB)).card = 1
      · rw [wrapper_drop_range h1 h2 h3 h4, wrapper_forward_none h1 h2 h3]
        simp
      · rw [wrapper_type_error h1 h2 h3, wrapper_type_error h1 h2 h3]

/-- C9 witness: `hamming_coefficient({1}, {2}, set())` — the empty
universe is dropped with the superset warning and the score matches the
two-argument call. -/
theorem c9_empty_universe_ignored_witness :
    wrapper_validate_input none hamming_coefficient_raw
        {PyVal.num 1} {PyVal.num 2} (some ∅) =
      PyResult.ok ["The total range provided is not a superset of the other two sets"]
        (some (hamming_coefficient_raw {PyVal.num 1} {PyVal.num 2} none)) ∧
    wrapper_validate_input none hamming_coefficient_raw
        {PyVal.num 1} {PyVal.num 2} none =
      PyResult.ok [] (some (hamming_coefficient_raw {PyVal.num 1} {PyVal.num 2} none)) :=
  (c9_empty_universe_ignored none hamming_coefficient_raw
    {PyVal.num 1} {PyVal.num 2} (by decide)).2.2 (by decide) (by decide)

/-- C10: `hamming_coefficient` without a universe argument, with exactly
one of the two sets empty (the other non-empty and homogeneous), returns
exactly 1: the symmetric difference equals the union. -/
theorem c10_hamming_coefficient_one (setA setB : Finset PyVal)
    (h : (setA = ∅ ∧ setB ≠ ∅) ∨ (setA ≠ ∅ ∧ setB = ∅))
    (hk : (kindsOf (setA ∪ setB)).card = 1) :
    hamming_coefficient setA setB none = PyResult.ok [] (some 1) := by
  have h1 : ¬((none : Option String) = some "one" ∧ (setA = ∅ ∨ setB = ∅)) := by
    simp
  have h2 : ¬(setA = ∅ ∧ setB = ∅) := by
    rcases h with ⟨_, hb⟩ | ⟨ha, _⟩
    · exact fun hh => hb hh.2
    · exact fun hh => ha hh.1
  rw [hamming_coefficient, wrapper_forward_none h1 h2 hk]
  have hv : hamming_coefficient_raw setA setB none = 1 := by
    rcases h with ⟨ha, hb⟩ | ⟨ha, hb⟩
    · subst ha
      simp only [hamming_coefficient_raw, hamming_distance, Finset.empty_union]
      rw [← Finset.bot_eq_empty, bot_symmDiff]
      exact div_self (Nat.cast_ne_zero.mpr
        (fun hc => hb (Finset.card_eq_zero.mp hc)))
    · subst hb
      simp only [hamming_coefficient_raw, hamming_distance, Finset.union_empty]
      rw [← Finset.bot_eq_empty, symmDiff_bot]
      exact div_self (Nat.cast_ne_zero.mpr
        (fun hc => ha (Finset.card_eq_zero.mp hc)))
  rw [hv]

/-- C10 witness: `hamming_coefficient(set(), {1})` is 1. -/
theorem c10_hamming_coefficient_one_witness :
    hamming_coefficient ∅ {PyVal.num 1} none = PyResult.ok [] (some 1) :=
  c10_hamming_coefficient_one ∅ {PyVal.num 1}
    (Or.inl ⟨rfl, by decide⟩) (by decide)
